import Mathlib

/-!
# waybar-basecamp: the `check` pipeline

A shallow embedding of `main.go`: cookie-store selection and the cookie filter
of `getCookieJar`, the response dispatch of `runCheck`, the status record built
by `writeWaybar`, and the `check` arm of `main`.

Go strings are Lean strings, a Go `error` is its message (`Option String`,
`none` for `nil`), and everything the program asks of its libraries and of the
host (file reads, `os.Stat`, cookie discovery, the HTTP round trip,
`json.Unmarshal`, `%v` formatting) is a field of `Env`.  The one library
routine written out is `FlagSet.Parse` of package `flag`, for the flag set
`checkCmd` on which no flag is defined.  What the program does
to the outside (standard output, the output file, the `pkill` call) is
returned as a list of `Effect`s, in program order.

Strings are compared character by character; on well-formed UTF-8 this agrees
with Go's byte-wise `strings.Contains` and `strings.HasSuffix`, and a string
has length 0 in bytes exactly when it has length 0 in characters.
-/

namespace WaybarBasecamp

/-! ## Strings -/

/-- Whether `p` is a prefix of `s`, character by character. -/
def startsWith : List Char → List Char → Bool
  | _, [] => true
  | [], _ :: _ => false
  | c :: s, p :: ps => c == p && startsWith s ps

/-- Search for `sub` at every position of `s`, left to right. -/
def containsChars : List Char → List Char → Bool
  | [], sub => startsWith [] sub
  | c :: s, sub => startsWith (c :: s) sub || containsChars s sub

/-- Go `strings.Contains(s, substr)`. -/
def Contains (s substr : String) : Bool :=
  containsChars s.data substr.data

/-- Go `strings.HasSuffix(s, suffix)`:
`len(s) >= len(suffix) && s[len(s)-len(suffix):] == suffix`. -/
def HasSuffix (s suffix : String) : Bool :=
  decide (suffix.data.length ≤ s.data.length) &&
    s.data.drop (s.data.length - suffix.data.length) == suffix.data

/-- Go `fmt.Sprintf("%d", count)` for a non-negative `count`. -/
def sprintD (count : Nat) : String :=
  Nat.repr count

/-! ## Data model -/

/-- `const WaybarSignal = "8"`. -/
def WaybarSignal : String := "8"

/-- `OutputFile = "/tmp/waybar_basecamp.json"`. -/
def OutputFile : String := "/tmp/waybar_basecamp.json"

/-- `type Config struct`. -/
structure Config where
  AccountID : String
  ProfileName : String
  deriving DecidableEq, Repr

/-- `type WaybarOutput struct`. -/
structure WaybarOutput where
  Text : String
  Alt : String
  Tooltip : String
  Class : String
  deriving DecidableEq, Repr

/-- The value `json.Unmarshal` stores into an `interface{}`:
`nil`, `bool`, `float64` (kept as its literal), `string`, `[]interface{}`,
`map[string]interface{}` (an association list, read with `List.lookup`). -/
inductive JVal where
  | null : JVal
  | bool (b : Bool) : JVal
  | number (literal : String) : JVal
  | string (s : String) : JVal
  | array (items : List JVal) : JVal
  | object (members : List (String × JVal)) : JVal

/-- `kooky.Cookie`, with the one field the filter reads next to name and value. -/
structure Cookie where
  Domain : String
  Name : String
  Value : String
  deriving DecidableEq, Repr

/-- `kooky.CookieStore`: `FilePath()`, `Browser()`, and what reading the
store yields (`SubJar` fails with that error when the store is unreadable). -/
structure CookieStore where
  FilePath : String
  Browser : String
  read : Except String (List Cookie)

/-- `store.SubJar(ctx, filter)`: the cookies of the store that pass `filter`. -/
def CookieStore.SubJar (store : CookieStore) (filter : Cookie → Bool) :
    Except String (List Cookie) :=
  match store.read with
  | .error err => .error err
  | .ok cookies => .ok (cookies.filter filter)

/-- `http.Request` as `runCheck` builds it. -/
structure Request where
  Method : String
  URL : String
  Header : List (String × String)
  deriving DecidableEq, Repr

/-- The part of `http.Response` that `runCheck` reads: `resp.Status` and the
bytes `io.ReadAll(resp.Body)` returned. -/
structure Response where
  Status : String
  Body : String
  deriving DecidableEq, Repr

/-- Errno `ENOENT`: no such file or directory. -/
def ENOENT : Nat := 2

/-- Errno `EACCES`: permission denied. -/
def EACCES : Nat := 13

/-- Errno `ENOTDIR`: a component of the path prefix is not a directory. -/
def ENOTDIR : Nat := 20

/-- Go `os.IsNotExist(err)` for the error of `os.Stat`, which is `nil` or
wraps a `syscall.Errno`: true for `ENOENT` only. -/
def IsNotExist (err : Option Nat) : Bool :=
  err == some ENOENT

/-- The host and the libraries, as `runCheck` sees them. -/
structure Env where
  /-- `DataFile`, that is `filepath.Join(ConfigDir, "data.json")`. -/
  DataFile : String
  /-- `os.ReadFile`. -/
  ReadFile : String → Except String String
  /-- `json.Unmarshal(file, &cfg)`: the decoded config, or the error. -/
  unmarshalConfig : String → Except String Config
  /-- `kooky.FindAllCookieStores(ctx)`, in discovery order. -/
  FindAllCookieStores : List CookieStore
  /-- The error of `os.Stat(path)`: `none` for `nil`, else the errno it wraps. -/
  Stat : String → Option Nat
  /-- The error of `http.NewRequest(method, url, nil)`, `none` for `nil`. -/
  newRequestErr : String → String → Option String
  /-- `client.Do(req)` for a client whose jar holds the given cookies. -/
  clientDo : List Cookie → Request → Except String Response
  /-- `json.Unmarshal(bodyBytes, &rawData)`. -/
  jsonUnmarshal : String → Except String JVal
  /-- `fmt.Sprintf("%v", v)`. -/
  sprintV : JVal → String

/-- What the program does to the outside. -/
inductive Effect where
  /-- `fmt.Printf` to standard output. -/
  | stdout (text : String) : Effect
  /-- Text written to standard error. -/
  | stderr (text : String) : Effect
  /-- `os.WriteFile(name, json.Marshal(out), perm)`; the write overwrites the
  file, its result is discarded by the program. -/
  | writeFile (name : String) (out : WaybarOutput) (perm : Nat) : Effect
  /-- `exec.Command(name, args...).Run()`, result discarded. -/
  | run (name : String) (args : List String) : Effect
  deriving DecidableEq, Repr

/-! ## Helpers (`writeWaybar`, `loadConfig`) -/

/-- The record `writeWaybar` builds (lines 227 to 247): `count` is the length
of `*readings`, or 0 for a nil pointer; the defaults are overwritten when
`count > 0`, else when `readings == nil`. -/
def writeWaybar.out (readings : Option (List JVal)) : WaybarOutput :=
  let count : Nat :=
    match readings with
    | some r => r.length
    | none => 0
  let out : WaybarOutput :=
    { Text := "",
      Alt := sprintD count,
      Tooltip := sprintD count ++ " Unread Notifications",
      Class := "empty" }
  if count > 0 then
    { out with Text := sprintD count, Class := "unread" }
  else if readings.isNone then
    { out with Text := "err", Alt := "error", Tooltip := "Check Failed", Class := "error" }
  else
    out

/-- `func writeWaybar(readings *[]interface{}) error`: builds the record,
writes it to `OutputFile`, signals waybar, and returns `nil`. -/
def writeWaybar (readings : Option (List JVal)) : Option String × List Effect :=
  (none,
    [Effect.writeFile OutputFile (writeWaybar.out readings) 0o644,
     Effect.run "pkill" ["-RTMIN+" ++ WaybarSignal, "waybar"]])

/-- `func loadConfig() (*Config, error)`. -/
def loadConfig (env : Env) : Except String Config :=
  match env.ReadFile env.DataFile with
  | .error err => .error err
  | .ok file => env.unmarshalConfig file

/-! ## `getCookieJar` -/

/-- The loop of `getCookieJar` (lines 196 to 204): the first store, in
discovery order, that none of the three `continue` tests skips. -/
def getCookieJar.selectedStore (env : Env) (profileName : String) :
    List CookieStore → Option CookieStore
  | [] => none
  | store :: stores =>
    let path := store.FilePath
    if !Contains path profileName then getCookieJar.selectedStore env profileName stores
    else if !HasSuffix path "Cookies" then getCookieJar.selectedStore env profileName stores
    else if IsNotExist (env.Stat path) then getCookieJar.selectedStore env profileName stores
    else some store

/-- The closure `filter` of `getCookieJar` (lines 211 to 214). -/
def getCookieJar.filter (c : Cookie) : Bool :=
  Contains c.Domain "basecamp.com" ||
    Contains c.Domain "37signals.com"

/-- `func getCookieJar(profileName string) (http.CookieJar, error)`; the jar
is the list of cookies it holds. -/
def getCookieJar (env : Env) (profileName : String) : Except String (List Cookie) :=
  match getCookieJar.selectedStore env profileName env.FindAllCookieStores with
  | none => .error ("no cookie store found matching profile '" ++ profileName ++ "'")
  | some selectedStore =>
    match selectedStore.SubJar getCookieJar.filter with
    | .error err => .error ("failed to create cookie jar: " ++ err)
    | .ok jar => .ok jar

/-! ## `runCheck` and the `check` arm of `main` -/

/-- The request `runCheck` sends (lines 132 to 141). -/
def runCheck.req (cfg : Config) : Request :=
  { Method := "GET",
    URL := "https://3.basecamp.com/" ++ cfg.AccountID ++ "/my/readings.json",
    Header :=
      [("User-Agent", "Mozilla/5.0 (X11; Linux x86_64) AppleWebKit/537.36 (KHTML, like Gecko) Chrome/120.0.0.0 Safari/537.36"),
       ("Accept", "application/json"),
       ("X-Requested-With", "XMLHttpRequest")] }

/-- The first half of `runCheck` (lines 121 to 146): config, cookie jar,
request; each failure is returned as the error of `runCheck`. -/
def runCheck.resp (env : Env) : Except String Response :=
  match loadConfig env with
  | .error err => .error ("config error: " ++ err)
  | .ok cfg =>
    match getCookieJar env cfg.ProfileName with
    | .error err => .error err
    | .ok jar =>
      let req := runCheck.req cfg
      match env.newRequestErr req.Method req.URL with
      | some err => .error err
      | none => env.clientDo jar req

/-- The second half of `runCheck` (lines 149 to 187): the empty-body test,
`json.Unmarshal`, and the type switch on the decoded root. -/
def runCheck.dispatch (env : Env) (resp : Response) : Option String × List Effect :=
  let bodyBytes := resp.Body
  if bodyBytes.length == 0 then
    writeWaybar (some [])
  else
    match env.jsonUnmarshal bodyBytes with
    | .error _ => (some ("API response was not JSON (Status: " ++ resp.Status ++ ")"), [])
    | .ok rawData =>
      match rawData with
      | .object data =>
        match data.lookup "unreads" with
        | some (.array unreads) => writeWaybar (some unreads)
        | _ =>
          match data.lookup "readings" with
          | some (.array readings) => writeWaybar (some readings)
          | _ =>
            match data.lookup "error" with
            | some errVal => (some ("API Error: " ++ env.sprintV errVal), [])
            | none =>
              (some ("JSON object returned, but no 'unreads' property found: " ++
                env.sprintV (.object data)), [])
      | .array data => writeWaybar (some data)
      | _ => (some "unknown JSON structure", [])

/-- `func runCheck() error`: the returned error and the effects, in order. -/
def runCheck (env : Env) : Option String × List Effect :=
  match runCheck.resp env with
  | .error err => (some err, [])
  | .ok resp => runCheck.dispatch env resp

/-- The `case "check"` arm of `main` from the `runCheck` call on (lines 65 to
68), reached when `checkCmd.Parse` returns: `runCheck`, and on an error the
message on standard output followed by `writeWaybar(nil)`. -/
def main.check (env : Env) : List Effect :=
  match runCheck env with
  | (some err, effects) =>
    effects ++ Effect.stdout ("Error: " ++ err ++ "\n") :: (writeWaybar none).2
  | (none, effects) => effects

/-- `checkCmd.Parse(arguments)` for `checkCmd := flag.NewFlagSet("check",
flag.ExitOnError)` (lines 52 and 64), a flag set on which no flag is defined.
Following `FlagSet.parseOne` of Go's package `flag`: parsing stops without an
error when there is no argument, when the first argument is shorter than two
characters or does not start with `-`, or when it is `--`; any other first
argument is a flag, and as none is defined it is an error. Under
`flag.ExitOnError` the error ends the process: the usage text goes to standard
error and the exit status is 0 for `-h` and `-help`, otherwise the error
message precedes the usage text and the status is 2. The result is the
output and the exit status, `none` when `Parse` returns. -/
def checkCmd.Parse (arguments : List String) : List Effect × Option Nat :=
  match arguments with
  | [] => ([], none)
  | s :: _ =>
    let cs := s.data
    if cs.length < 2 || cs.head? != some '-' then ([], none)
    else
      let numMinuses := if cs.get? 1 == some '-' then 2 else 1
      if numMinuses == 2 && cs.length == 2 then ([], none)
      else
        let name := cs.drop numMinuses
        if name.isEmpty || name.head? == some '-' || name.head? == some '=' then
          ([Effect.stderr ("bad flag syntax: " ++ s ++ "\n"),
            Effect.stderr "Usage of check:\n"], some 2)
        else
          let name := name.take 1 ++ (name.drop 1).takeWhile (fun c => c != '=')
          if name == "help".data || name == "h".data then
            ([Effect.stderr "Usage of check:\n"], some 0)
          else
            ([Effect.stderr ("flag provided but not defined: -" ++ String.mk name ++ "\n"),
              Effect.stderr "Usage of check:\n"], some 2)

/-- The `case "check"` arm of `main` (lines 64 to 68) for the arguments
`os.Args[2:]`: the effects and the exit status of the process. When
`checkCmd.Parse` ends the process nothing of `runCheck` runs. -/
def main.caseCheck (env : Env) (arguments : List String) : List Effect × Nat :=
  match checkCmd.Parse arguments with
  | (output, some status) => (output, status)
  | (output, none) => (output ++ main.check env, 0)

/-! ## Reading a trace -/

/-- The records written to `OutputFile`, in order. -/
def published : List Effect → List WaybarOutput
  | [] => []
  | Effect.writeFile name out _ :: effects =>
    if name = OutputFile then out :: published effects else published effects
  | _ :: effects => published effects

/-! ## Selection, restated -/

/-- The three tests of the selection loop, as one Boolean. -/
def getCookieJar.keeps (env : Env) (profileName : String) (store : CookieStore) : Bool :=
  Contains store.FilePath profileName && HasSuffix store.FilePath "Cookies" &&
    !IsNotExist (env.Stat store.FilePath)

/-- What the selection loop requires of a store, in words of strings: the
path contains the profile name as a substring, the path ends with the string
"Cookies", and `os.Stat` on the path does not fail with `ENOENT`. -/
def getCookieJar.Kept (env : Env) (profileName : String) (store : CookieStore) : Prop :=
  (∃ a b : List Char, store.FilePath.data = a ++ profileName.data ++ b) ∧
  (∃ a : List Char, store.FilePath.data = a ++ "Cookies".data) ∧
  env.Stat store.FilePath ≠ some ENOENT

/-! ## The specification's words -/

/-- The three-row table of the status renderer: `none` is a failure, `some n`
a successful count. -/
def Spec.Render : Option Nat → WaybarOutput
  | none => { Text := "err", Alt := "error", Tooltip := "Check Failed", Class := "error" }
  | some 0 => { Text := "", Alt := "0", Tooltip := "0 Unread Notifications", Class := "empty" }
  | some (n + 1) =>
    { Text := sprintD (n + 1),
      Alt := sprintD (n + 1),
      Tooltip := sprintD (n + 1) ++ " Unread Notifications",
      Class := "unread" }

/-- A proper domain-suffix match: the domain equals the allow-listed domain
or ends with "." followed by it. -/
def Spec.domainMatches (domain allowed : String) : Bool :=
  domain == allowed || HasSuffix domain ("." ++ allowed)

/-- The allow-list of the specification: the service domain and its
authentication-provider domain. -/
def Spec.allowListed (domain : String) : Bool :=
  Spec.domainMatches domain "basecamp.com" || Spec.domainMatches domain "37signals.com"

/-- The last path component: what follows the last `/`. -/
def Spec.lastSegment (path : String) : List Char :=
  (path.data.reverse.takeWhile (fun c => c != '/')).reverse

/-- Whether the file exists on disk, read off the error of `os.Stat`: the
file is missing when the call fails with `ENOENT` (no file of that name) or
with `ENOTDIR` (a component of the path prefix is not a directory, so the path
names no file). Any other failure leaves the question open and is not counted
as missing. -/
def Spec.existsOnDisk (err : Option Nat) : Bool :=
  !(err == some ENOENT || err == some ENOTDIR)

/-- Store acceptance as the specification words it: the path contains the
profile name, its last path segment is exactly "Cookies", and the file exists
on disk. -/
def Spec.accepts (env : Env) (profileName : String) (store : CookieStore) : Bool :=
  Contains store.FilePath profileName &&
    Spec.lastSegment store.FilePath == "Cookies".data &&
    Spec.existsOnDisk (env.Stat store.FilePath)

/-! ## A concrete host -/

/-- A Chrome profile's cookie database holding one service cookie. -/
def demoStore : CookieStore :=
  { FilePath := "/home/u/.config/google-chrome/Default/Cookies",
    Browser := "chrome",
    read := .ok [{ Domain := ".basecamp.com", Name := "session", Value := "v" }] }

/-- A host on which every stage up to the request succeeds: the config names
profile "Default", the one store is `demoStore`, the server answers `resp`
and `json.Unmarshal` of the body gives `root`. -/
def demoEnv (resp : Response) (root : Except String JVal) : Env :=
  { DataFile := "/home/u/.config/waybar-basecamp/data.json",
    ReadFile := fun _ => .ok "(config)",
    unmarshalConfig := fun _ => .ok { AccountID := "1234567", ProfileName := "Default" },
    FindAllCookieStores := [demoStore],
    Stat := fun _ => none,
    newRequestErr := fun _ _ => none,
    clientDo := fun _ _ => .ok resp,
    jsonUnmarshal := fun _ => root,
    sprintV := fun v =>
      match v with
      | .string s => s
      | .null => "<nil>"
      | .object [] => "map[]"
      | _ => "(value)" }

/-- A profile directory as Chrome lays it out: next to `Cookies` it holds a
file named `Extension Cookies`. -/
def extensionStore : CookieStore :=
  { FilePath := "/home/u/.config/google-chrome/Default/Extension Cookies",
    Browser := "chrome",
    read := .ok [{ Domain := ".basecamp.com", Name := "session", Value := "v" }] }

/-- A second profile of the same browser. -/
def profile1Store : CookieStore :=
  { FilePath := "/home/u/.config/google-chrome/Profile 1/Cookies",
    Browser := "chrome",
    read := .ok [] }

/-- The demo host with the discovered stores replaced. -/
def demoEnvWithStores (stores : List CookieStore) : Env :=
  { demoEnv { Status := "200 OK", Body := "" } (.error "unexpected end of JSON input") with
    FindAllCookieStores := stores }

/-- A store whose path runs through a regular file: `Default` is no
directory, so there is no file `Default/Cookies` and the store cannot be read. -/
def unreachableStore : CookieStore :=
  { FilePath := "/home/u/.config/google-chrome/Default/Cookies",
    Browser := "chrome",
    read := .error "unable to open database file" }

/-- The host of `unreachableStore`: `os.Stat` of its path fails with `ENOTDIR`. -/
def notDirEnv : Env :=
  { demoEnvWithStores [unreachableStore] with Stat := fun _ => some ENOTDIR }

/-- The body `{"error":"x","readings":[{}],"unreads":[{},{}]}`. -/
def unreadsBody : String :=
  "\x7b\"error\":\"x\",\"readings\":[\x7b\x7d],\"unreads\":[\x7b\x7d,\x7b\x7d]\x7d"

/-- The demo host answering `unreadsBody`. -/
def unreadsEnv : Env :=
  demoEnv { Status := "200 OK", Body := unreadsBody }
    (.ok (.object [("error", .string "x"), ("readings", .array [.object []]),
      ("unreads", .array [.object [], .object []])]))

/-- The body `{"readings":[{}]}`, served by the demo host. -/
def readingsEnv : Env :=
  demoEnv { Status := "200 OK", Body := "\x7b\"readings\":[\x7b\x7d]\x7d" }
    (.ok (.object [("readings", .array [.object []])]))

/-- The body `{}`, served by the demo host. -/
def emptyObjectEnv : Env :=
  demoEnv { Status := "200 OK", Body := "\x7b\x7d" } (.ok (.object []))

/-- The body `[{},{},{}]`, served by the demo host. -/
def arrayEnv : Env :=
  demoEnv { Status := "200 OK", Body := "[\x7b\x7d,\x7b\x7d,\x7b\x7d]" }
    (.ok (.array [.object [], .object [], .object []]))

/-- The body `5`, a JSON number, served by the demo host. -/
def numberEnv : Env :=
  demoEnv { Status := "200 OK", Body := "5" } (.ok (.number "5"))

/-- A body that is no JSON, served with status "502 Bad Gateway". -/
def notJsonEnv : Env :=
  demoEnv { Status := "502 Bad Gateway", Body := "not json" }
    (.error "invalid character in literal null")

/-- An empty body, served with status "500 Internal Server Error". -/
def emptyBodyEnv : Env :=
  demoEnv { Status := "500 Internal Server Error", Body := "" }
    (.error "unexpected end of JSON input")

/-- The demo host without its config file. -/
def noConfigEnv : Env :=
  { emptyBodyEnv with ReadFile := fun _ => .error "no such file or directory" }

/-! ## Strings: the searches decide the expected relations -/

theorem startsWith_iff (s p : List Char) : startsWith s p = true ↔ p <+: s := by
  induction p generalizing s with
  | nil => cases s <;> simp [startsWith]
  | cons x ps ih =>
    cases s with
    | nil => simp [startsWith]
    | cons c s =>
      simp only [startsWith, Bool.and_eq_true, beq_iff_eq, ih, List.cons_prefix_cons]
      constructor
      · rintro ⟨h1, h2⟩; exact ⟨h1.symm, h2⟩
      · rintro ⟨h1, h2⟩; exact ⟨h1.symm, h2⟩

theorem containsChars_iff (s sub : List Char) : containsChars s sub = true ↔ sub <:+: s := by
  induction s with
  | nil =>
    simp only [containsChars, startsWith_iff]
    simp
  | cons c s ih =>
    simp only [containsChars, Bool.or_eq_true, startsWith_iff, ih]
    exact List.infix_cons_iff.symm

/-- The `%d` rendering is the decimal numeral. -/
theorem sprintD_examples :
    sprintD 0 = "0" ∧ sprintD 7 = "7" ∧ sprintD 10 = "10" ∧ sprintD 1234 = "1234" := by
  decide

theorem Contains_iff (s sub : String) :
    Contains s sub = true ↔ ∃ a b : List Char, s.data = a ++ sub.data ++ b := by
  unfold Contains
  rw [containsChars_iff]
  constructor
  · rintro ⟨a, b, h⟩; exact ⟨a, b, h.symm⟩
  · rintro ⟨a, b, h⟩; exact ⟨a, b, h.symm⟩

theorem HasSuffix_iff (s suffix : String) :
    HasSuffix s suffix = true ↔ ∃ a : List Char, s.data = a ++ suffix.data := by
  unfold HasSuffix
  constructor
  · intro h
    simp only [Bool.and_eq_true, decide_eq_true_eq, beq_iff_eq] at h
    refine ⟨s.data.take (s.data.length - suffix.data.length), ?_⟩
    conv_lhs => rw [← List.take_append_drop (s.data.length - suffix.data.length) s.data]
    rw [h.2]
  · rintro ⟨a, h⟩
    simp only [Bool.and_eq_true, decide_eq_true_eq, beq_iff_eq]
    rw [h]
    simp

/-! ## Shared facts about `writeWaybar` and traces -/

theorem writeWaybar_out_eq_Render (readings : Option (List JVal)) :
    writeWaybar.out readings = Spec.Render (readings.map List.length) := by
  cases readings with
  | none => rfl
  | some r =>
    cases r with
    | nil => rfl
    | cons x xs => simp [writeWaybar.out, Spec.Render]

theorem published_writeWaybar (readings : Option (List JVal)) :
    published (writeWaybar readings).2 = [Spec.Render (readings.map List.length)] := by
  simp [writeWaybar, published, writeWaybar_out_eq_Render]

/-- When `runCheck` fails without having written anything, the `check` arm
publishes the error record and nothing else. -/
theorem main_check_of_error (env : Env) (err : String) (h : runCheck env = (some err, [])) :
    main.check env =
      [Effect.stdout ("Error: " ++ err ++ "\n"),
       Effect.writeFile OutputFile (Spec.Render none) 0o644,
       Effect.run "pkill" ["-RTMIN+8", "waybar"]] := by
  simp only [main.check, h]
  rfl

/-- When `runCheck` ends in `writeWaybar`, the `check` arm adds nothing. -/
theorem main_check_of_write (env : Env) (readings : Option (List JVal))
    (h : runCheck env = writeWaybar readings) :
    main.check env = (writeWaybar readings).2 := by
  simp only [main.check, h]
  rfl

/-! ## C1: the status table -/

/-- C1. The record `writeWaybar` writes follows the three-row table for every
input: a nil input gives the error record; a non-nil input of length 0 gives
the `empty` record with alt "0"; a non-nil input of length n > 0 gives the
`unread` record with text and alt the decimal of n.  The class is always one
of "empty", "unread", "error", and the call writes that one record to the
output file, signals waybar and returns no error. -/
theorem writeWaybar_table :
    writeWaybar.out none =
        { Text := "err", Alt := "error", Tooltip := "Check Failed", Class := "error" } ∧
    (∀ readings : List JVal, readings.length = 0 →
      writeWaybar.out (some readings) =
        { Text := "", Alt := "0", Tooltip := "0 Unread Notifications", Class := "empty" }) ∧
    (∀ (readings : List JVal) (n : Nat), readings.length = n → 0 < n →
      writeWaybar.out (some readings) =
        { Text := sprintD n, Alt := sprintD n,
          Tooltip := sprintD n ++ " Unread Notifications", Class := "unread" }) ∧
    (∀ readings : Option (List JVal),
      (writeWaybar.out readings).Class = "empty" ∨
      (writeWaybar.out readings).Class = "unread" ∨
      (writeWaybar.out readings).Class = "error") ∧
    (∀ readings : Option (List JVal),
      writeWaybar readings =
        (none, [Effect.writeFile OutputFile (writeWaybar.out readings) 0o644,
                Effect.run "pkill" ["-RTMIN+8", "waybar"]])) := by
  refine ⟨rfl, ?_, ?_, ?_, ?_⟩
  · intro readings h
    have : readings = [] := List.length_eq_zero.mp h
    subst this
    rfl
  · intro readings n hn hpos
    subst hn
    simp [writeWaybar.out, hpos]
  · intro readings
    rw [writeWaybar_out_eq_Render]
    cases readings with
    | none => right; right; rfl
    | some r =>
      cases r with
      | nil => left; rfl
      | cons x xs => right; left; rfl
  · intro readings
    rfl

/-- C1 at concrete inputs: a two-element array gives the `unread` record "2",
an empty array the `empty` record. -/
theorem writeWaybar_table_witness :
    writeWaybar.out (some [JVal.object [], JVal.object []]) =
        { Text := "2", Alt := "2", Tooltip := "2 Unread Notifications", Class := "unread" } ∧
    writeWaybar.out (some []) =
        { Text := "", Alt := "0", Tooltip := "0 Unread Notifications", Class := "empty" } :=
  ⟨writeWaybar_table.2.2.1 [JVal.object [], JVal.object []] 2 rfl (by decide),
   writeWaybar_table.2.1 [] rfl⟩

/-! ## C4: the cookie filter -/

theorem Spec.domainMatches_contains (domain allowed : String)
    (h : Spec.domainMatches domain allowed = true) : Contains domain allowed = true := by
  rw [Contains_iff]
  simp only [Spec.domainMatches, Bool.or_eq_true, beq_iff_eq, HasSuffix_iff] at h
  rcases h with h | ⟨a, h⟩
  · exact ⟨[], [], by simp [h]⟩
  · exact ⟨a ++ ".".data, [], by simp [h, String.data_append]⟩

/-- C4, as the code has it. The filter of `getCookieJar` includes a cookie
exactly when its domain contains "basecamp.com" or "37signals.com" as a
substring; every proper domain-suffix match of an allow-listed domain is
therefore included, and the jar holds exactly the store's cookies that pass
this test. -/
theorem getCookieJar_filter_substring (c : Cookie) :
    (getCookieJar.filter c = true ↔
      (∃ a b : List Char, c.Domain.data = a ++ "basecamp.com".data ++ b) ∨
      (∃ a b : List Char, c.Domain.data = a ++ "37signals.com".data ++ b)) ∧
    (Spec.allowListed c.Domain = true → getCookieJar.filter c = true) ∧
    (∀ (env : Env) (profileName : String) (store : CookieStore) (cookies jar : List Cookie),
      getCookieJar.selectedStore env profileName env.FindAllCookieStores = some store →
      store.read = .ok cookies →
      getCookieJar env profileName = .ok jar →
      (c ∈ jar ↔ c ∈ cookies ∧ getCookieJar.filter c = true)) := by
  refine ⟨?_, ?_, ?_⟩
  · simp only [getCookieJar.filter, Bool.or_eq_true, Contains_iff]
  · intro h
    simp only [Spec.allowListed, Bool.or_eq_true] at h
    simp only [getCookieJar.filter, Bool.or_eq_true]
    rcases h with h | h
    · exact Or.inl (Spec.domainMatches_contains _ _ h)
    · exact Or.inr (Spec.domainMatches_contains _ _ h)
  · intro env profileName store cookies jar hsel hread hjar
    simp only [getCookieJar, hsel, CookieStore.SubJar, hread] at hjar
    cases hjar
    simp [List.mem_filter]

/-- C4 at a concrete cookie: the subdomain "3.basecamp.com" is a suffix match
and passes the filter, and the jar built on the demo host holds the store's
".basecamp.com" cookie. -/
theorem getCookieJar_filter_substring_witness :
    Spec.allowListed "3.basecamp.com" = true ∧
    getCookieJar.filter { Domain := "3.basecamp.com", Name := "session", Value := "v" } = true ∧
    ({ Domain := ".basecamp.com", Name := "session", Value := "v" } : Cookie) ∈
      [({ Domain := ".basecamp.com", Name := "session", Value := "v" } : Cookie)] ∧
    getCookieJar.filter { Domain := ".basecamp.com", Name := "session", Value := "v" } = true :=
  ⟨by decide,
   (getCookieJar_filter_substring
      { Domain := "3.basecamp.com", Name := "session", Value := "v" }).2.1 (by decide),
   ((getCookieJar_filter_substring
      { Domain := ".basecamp.com", Name := "session", Value := "v" }).2.2
      (demoEnv { Status := "200 OK", Body := "" } (.error "unexpected end of JSON input"))
      "Default" demoStore
      [{ Domain := ".basecamp.com", Name := "session", Value := "v" }]
      [{ Domain := ".basecamp.com", Name := "session", Value := "v" }]
      rfl rfl rfl).mp (by decide)⟩

/-- C4 as claimed fails: "basecamp.com.evil.org" and "notbasecamp.com" are no
suffix matches of an allow-listed domain, yet the filter includes their
cookies. -/
theorem getCookieJar_filter_not_suffix_match :
    getCookieJar.filter { Domain := "basecamp.com.evil.org", Name := "n", Value := "v" } = true ∧
    Spec.allowListed "basecamp.com.evil.org" = false ∧
    getCookieJar.filter { Domain := "notbasecamp.com", Name := "n", Value := "v" } = true ∧
    Spec.allowListed "notbasecamp.com" = false := by
  decide

/-! ## C5: store selection -/

theorem getCookieJar.selectedStore_cons (env : Env) (profileName : String)
    (store : CookieStore) (stores : List CookieStore) :
    getCookieJar.selectedStore env profileName (store :: stores) =
      if getCookieJar.keeps env profileName store then some store
      else getCookieJar.selectedStore env profileName stores := by
  cases h1 : Contains store.FilePath profileName <;>
    cases h2 : HasSuffix store.FilePath "Cookies" <;>
    cases h3 : IsNotExist (env.Stat store.FilePath) <;>
    simp [getCookieJar.selectedStore, getCookieJar.keeps, h1, h2, h3]

theorem getCookieJar.selectedStore_eq_some (env : Env) (profileName : String)
    (stores : List CookieStore) (store : CookieStore) :
    getCookieJar.selectedStore env profileName stores = some store ↔
      ∃ before after : List CookieStore, stores = before ++ store :: after ∧
        getCookieJar.keeps env profileName store = true ∧
        ∀ t ∈ before, getCookieJar.keeps env profileName t = false := by
  induction stores with
  | nil => simp [getCookieJar.selectedStore]
  | cons s rest ih =>
    rw [getCookieJar.selectedStore_cons]
    by_cases hk : getCookieJar.keeps env profileName s = true
    · rw [if_pos hk]
      constructor
      · intro h
        cases h
        exact ⟨[], rest, rfl, hk, by simp⟩
      · rintro ⟨before, after, heq, _, hbefore⟩
        cases before with
        | nil =>
          simp only [List.nil_append, List.cons.injEq] at heq
          rw [heq.1]
        | cons b bs =>
          simp only [List.cons_append, List.cons.injEq] at heq
          have := hbefore b (by simp)
          rw [← heq.1, hk] at this
          cases this
    · rw [if_neg hk, ih]
      have hk2 : getCookieJar.keeps env profileName s = false := by simpa using hk
      constructor
      · rintro ⟨before, after, heq, hs, hbefore⟩
        refine ⟨s :: before, after, by simp [heq], hs, ?_⟩
        intro t ht
        rcases List.mem_cons.mp ht with h | h
        · rw [h]; exact hk2
        · exact hbefore t h
      · rintro ⟨before, after, heq, hs, hbefore⟩
        cases before with
        | nil =>
          simp only [List.nil_append, List.cons.injEq] at heq
          rw [heq.1, hs] at hk2
          cases hk2
        | cons b bs =>
          simp only [List.cons_append, List.cons.injEq] at heq
          exact ⟨bs, after, heq.2, hs, fun t ht => hbefore t (by simp [ht])⟩

theorem getCookieJar.selectedStore_eq_none (env : Env) (profileName : String)
    (stores : List CookieStore) :
    getCookieJar.selectedStore env profileName stores = none ↔
      ∀ t ∈ stores, getCookieJar.keeps env profileName t = false := by
  induction stores with
  | nil => simp [getCookieJar.selectedStore]
  | cons s rest ih =>
    rw [getCookieJar.selectedStore_cons]
    by_cases hk : getCookieJar.keeps env profileName s = true
    · simp [hk]
    · have hk2 : getCookieJar.keeps env profileName s = false := by simpa using hk
      simp [hk2, ih]

theorem getCookieJar.keeps_iff (env : Env) (profileName : String) (store : CookieStore) :
    getCookieJar.keeps env profileName store = true ↔
      ((∃ a b : List Char, store.FilePath.data = a ++ profileName.data ++ b) ∧
       (∃ a : List Char, store.FilePath.data = a ++ "Cookies".data) ∧
       env.Stat store.FilePath ≠ some ENOENT) := by
  simp only [getCookieJar.keeps, Bool.and_eq_true, Contains_iff, HasSuffix_iff,
    Bool.not_eq_true', and_assoc, IsNotExist, beq_eq_false_iff_ne]

theorem jar_error_ne_not_found (err profileName : String) :
    "failed to create cookie jar: " ++ err ≠
      "no cookie store found matching profile '" ++ profileName ++ "'" := by
  intro h
  have h2 := congrArg String.data h
  simp only [String.data_append] at h2
  have h3 := congrArg List.head? h2
  simp at h3

/-- C5, as the code has it. For every sequence of discovered stores and every
profile name, the selection loop of `getCookieJar` returns the first store in
discovery order whose path (a) contains the profile name as a substring,
(b) ends with the string "Cookies" and (c) is not reported as non-existent by
`os.Stat` (the call does not fail with `ENOENT`); `getCookieJar` fails with
the not-found error exactly when no store satisfies all three. A returned
store is never one that `os.Stat` reports as non-existent, and on a host where
`os.Stat` either succeeds or fails with `ENOENT` the file of a returned store
exists. -/
theorem getCookieJar_selects_first_kept (env : Env) (profileName : String) :
    (∀ store : CookieStore,
      getCookieJar.selectedStore env profileName env.FindAllCookieStores = some store ↔
        ∃ before after : List CookieStore,
          env.FindAllCookieStores = before ++ store :: after ∧
          getCookieJar.Kept env profileName store ∧
          ∀ t ∈ before, ¬ getCookieJar.Kept env profileName t) ∧
    (getCookieJar env profileName =
        .error ("no cookie store found matching profile '" ++ profileName ++ "'") ↔
      ∀ t ∈ env.FindAllCookieStores, ¬ getCookieJar.Kept env profileName t) ∧
    (∀ store : CookieStore,
      getCookieJar.selectedStore env profileName env.FindAllCookieStores = some store →
        env.Stat store.FilePath ≠ some ENOENT) ∧
    ((∀ path : String, env.Stat path = none ∨ env.Stat path = some ENOENT) →
      ∀ store : CookieStore,
        getCookieJar.selectedStore env profileName env.FindAllCookieStores = some store →
          env.Stat store.FilePath = none ∧
          Spec.existsOnDisk (env.Stat store.FilePath) = true) := by
  have hkept : ∀ t : CookieStore,
      getCookieJar.keeps env profileName t = false ↔ ¬ getCookieJar.Kept env profileName t := by
    intro t
    rw [getCookieJar.Kept, ← getCookieJar.keeps_iff]
    simp
  have hfirst : ∀ store : CookieStore,
      getCookieJar.selectedStore env profileName env.FindAllCookieStores = some store ↔
        ∃ before after : List CookieStore,
          env.FindAllCookieStores = before ++ store :: after ∧
          getCookieJar.Kept env profileName store ∧
          ∀ t ∈ before, ¬ getCookieJar.Kept env profileName t := by
    intro store
    rw [getCookieJar.selectedStore_eq_some]
    constructor
    · rintro ⟨before, after, heq, hs, hb⟩
      exact ⟨before, after, heq, (getCookieJar.keeps_iff env profileName store).mp hs,
        fun t ht => (hkept t).mp (hb t ht)⟩
    · rintro ⟨before, after, heq, hs, hb⟩
      exact ⟨before, after, heq, (getCookieJar.keeps_iff env profileName store).mpr hs,
        fun t ht => (hkept t).mpr (hb t ht)⟩
  have hstat : ∀ store : CookieStore,
      getCookieJar.selectedStore env profileName env.FindAllCookieStores = some store →
        env.Stat store.FilePath ≠ some ENOENT := by
    intro store h
    obtain ⟨_, _, _, hs, _⟩ := (hfirst store).mp h
    exact hs.2.2
  refine ⟨hfirst, ?_, hstat, ?_⟩
  · constructor
    · intro h t ht
      rw [← hkept]
      revert t
      rw [← getCookieJar.selectedStore_eq_none]
      cases hsel : getCookieJar.selectedStore env profileName env.FindAllCookieStores with
      | none => rfl
      | some store =>
        simp only [getCookieJar, hsel] at h
        cases hjar : store.SubJar getCookieJar.filter with
        | error err =>
          simp only [hjar, Except.error.injEq] at h
          exact absurd h (jar_error_ne_not_found err profileName)
        | ok jar => simp [hjar] at h
    · intro h
      have hnone : getCookieJar.selectedStore env profileName env.FindAllCookieStores = none := by
        rw [getCookieJar.selectedStore_eq_none]
        exact fun t ht => (hkept t).mpr (h t ht)
      simp only [getCookieJar, hnone]
  · intro hhost store h
    have hnone : env.Stat store.FilePath = none := by
      rcases hhost store.FilePath with h0 | h0
      · exact h0
      · exact absurd h0 (hstat store h)
    exact ⟨hnone, by rw [hnone]; rfl⟩

/-- C5 on a host with two profiles where every `os.Stat` succeeds: the first
store does not carry the profile name, the second is the one selected, and its
file exists. -/
theorem getCookieJar_selects_first_kept_witness :
    (∃ before after : List CookieStore,
      [profile1Store, demoStore] = before ++ demoStore :: after ∧
      getCookieJar.Kept (demoEnvWithStores [profile1Store, demoStore]) "Default" demoStore ∧
      ∀ t ∈ before, ¬ getCookieJar.Kept (demoEnvWithStores [profile1Store, demoStore]) "Default" t) ∧
    ((demoEnvWithStores [profile1Store, demoStore]).Stat demoStore.FilePath = none ∧
     Spec.existsOnDisk
       ((demoEnvWithStores [profile1Store, demoStore]).Stat demoStore.FilePath) = true) :=
  ⟨((getCookieJar_selects_first_kept
      (demoEnvWithStores [profile1Store, demoStore]) "Default").1 demoStore).mp rfl,
   (getCookieJar_selects_first_kept
      (demoEnvWithStores [profile1Store, demoStore]) "Default").2.2.2
      (fun _ => Or.inl rfl) demoStore rfl⟩

/-- C5 as claimed fails, in (b) and in (c). First host: the only store is the
file `Extension Cookies` of profile "Default"; its last path segment is not
"Cookies", so no store satisfies the three conditions as worded, yet the loop
selects it and `getCookieJar` returns a jar. Second host: `Default` is a
regular file, so `os.Stat` of `Default/Cookies` fails with `ENOTDIR` and the
file does not exist; `os.IsNotExist` is false for that error, the loop selects
the store, and `getCookieJar` fails in the jar build, not with the not-found
error. -/
theorem getCookieJar_selects_longer_segment_or_missing_file :
    (Spec.lastSegment extensionStore.FilePath = "Extension Cookies".data ∧
     Spec.accepts (demoEnvWithStores [extensionStore]) "Default" extensionStore = false ∧
     (getCookieJar.selectedStore (demoEnvWithStores [extensionStore]) "Default"
         (demoEnvWithStores [extensionStore]).FindAllCookieStores).map CookieStore.FilePath =
       some "/home/u/.config/google-chrome/Default/Extension Cookies" ∧
     getCookieJar (demoEnvWithStores [extensionStore]) "Default" =
       .ok [{ Domain := ".basecamp.com", Name := "session", Value := "v" }]) ∧
    (notDirEnv.Stat unreachableStore.FilePath = some ENOTDIR ∧
     IsNotExist (notDirEnv.Stat unreachableStore.FilePath) = false ∧
     Spec.existsOnDisk (notDirEnv.Stat unreachableStore.FilePath) = false ∧
     Spec.accepts notDirEnv "Default" unreachableStore = false ∧
     (getCookieJar.selectedStore notDirEnv "Default"
         notDirEnv.FindAllCookieStores).map CookieStore.FilePath =
       some "/home/u/.config/google-chrome/Default/Cookies" ∧
     getCookieJar notDirEnv "Default" =
       .error "failed to create cookie jar: unable to open database file") := by
  refine ⟨⟨by decide, by decide, by decide, rfl⟩,
    ⟨rfl, by decide, by decide, by decide, by decide, rfl⟩⟩

/-! ## The dispatch of `runCheck` -/

theorem runCheck_of_resp (env : Env) (resp : Response) (h : runCheck.resp env = .ok resp) :
    runCheck env = runCheck.dispatch env resp := by
  simp only [runCheck, h]

/-- Every run of `runCheck` either returns an error having written nothing,
or ends in one `writeWaybar` call on a non-nil list. -/
theorem runCheck_cases (env : Env) :
    (∃ err : String, runCheck env = (some err, [])) ∨
    (∃ readings : List JVal, runCheck env = writeWaybar (some readings)) := by
  unfold runCheck
  split
  · exact Or.inl ⟨_, rfl⟩
  · unfold runCheck.dispatch
    simp only
    split
    · exact Or.inr ⟨_, rfl⟩
    · split
      · exact Or.inl ⟨_, rfl⟩
      · split
        · split
          · exact Or.inr ⟨_, rfl⟩
          · split
            · exact Or.inr ⟨_, rfl⟩
            · split
              · exact Or.inl ⟨_, rfl⟩
              · exact Or.inl ⟨_, rfl⟩
        · exact Or.inr ⟨_, rfl⟩
        · exact Or.inl ⟨_, rfl⟩

theorem dispatch_empty (env : Env) (resp : Response) (h : resp.Body.length = 0) :
    runCheck.dispatch env resp = writeWaybar (some []) := by
  simp [runCheck.dispatch, h]

theorem dispatch_not_json (env : Env) (resp : Response) (e : String)
    (hne : resp.Body.length ≠ 0) (h : env.jsonUnmarshal resp.Body = .error e) :
    runCheck.dispatch env resp =
      (some ("API response was not JSON (Status: " ++ resp.Status ++ ")"), []) := by
  simp [runCheck.dispatch, hne, h]

theorem dispatch_array (env : Env) (resp : Response) (data : List JVal)
    (hne : resp.Body.length ≠ 0) (h : env.jsonUnmarshal resp.Body = .ok (.array data)) :
    runCheck.dispatch env resp = writeWaybar (some data) := by
  simp [runCheck.dispatch, hne, h]

theorem dispatch_other (env : Env) (resp : Response) (v : JVal)
    (hne : resp.Body.length ≠ 0) (h : env.jsonUnmarshal resp.Body = .ok v)
    (hobj : ∀ m, v ≠ .object m) (harr : ∀ xs, v ≠ .array xs) :
    runCheck.dispatch env resp = (some "unknown JSON structure", []) := by
  cases v with
  | object m => exact absurd rfl (hobj m)
  | array xs => exact absurd rfl (harr xs)
  | null => simp [runCheck.dispatch, hne, h]
  | bool b => simp [runCheck.dispatch, hne, h]
  | number n => simp [runCheck.dispatch, hne, h]
  | string t => simp [runCheck.dispatch, hne, h]

theorem dispatch_unreads (env : Env) (resp : Response) (data : List (String × JVal))
    (unreads : List JVal) (hne : resp.Body.length ≠ 0)
    (h : env.jsonUnmarshal resp.Body = .ok (.object data))
    (hun : data.lookup "unreads" = some (.array unreads)) :
    runCheck.dispatch env resp = writeWaybar (some unreads) := by
  simp [runCheck.dispatch, hne, h, hun]

theorem dispatch_readings (env : Env) (resp : Response) (data : List (String × JVal))
    (readings : List JVal) (hne : resp.Body.length ≠ 0)
    (h : env.jsonUnmarshal resp.Body = .ok (.object data))
    (hun : ∀ xs, data.lookup "unreads" ≠ some (.array xs))
    (hre : data.lookup "readings" = some (.array readings)) :
    runCheck.dispatch env resp = writeWaybar (some readings) := by
  unfold runCheck.dispatch
  simp only [beq_iff_eq, hne, if_false, h]
  cases hlu : List.lookup "unreads" data with
  | none => simp [hre]
  | some v =>
    cases v with
    | array xs => exact absurd hlu (hun xs)
    | null => simp [hre]
    | bool b => simp [hre]
    | number n => simp [hre]
    | string t => simp [hre]
    | object m => simp [hre]

theorem dispatch_no_array (env : Env) (resp : Response) (data : List (String × JVal))
    (hne : resp.Body.length ≠ 0)
    (h : env.jsonUnmarshal resp.Body = .ok (.object data))
    (hun : ∀ xs, data.lookup "unreads" ≠ some (.array xs))
    (hre : ∀ xs, data.lookup "readings" ≠ some (.array xs)) :
    runCheck.dispatch env resp =
      match data.lookup "error" with
      | some errVal => (some ("API Error: " ++ env.sprintV errVal), [])
      | none =>
        (some ("JSON object returned, but no 'unreads' property found: " ++
          env.sprintV (.object data)), []) := by
  unfold runCheck.dispatch
  simp only [beq_iff_eq, hne, if_false, h]

theorem published_check_of_error (env : Env) (err : String) (h : runCheck env = (some err, [])) :
    published (main.check env) =
      [{ Text := "err", Alt := "error", Tooltip := "Check Failed", Class := "error" }] := by
  rw [main_check_of_error env err h]
  rfl

theorem published_check_of_write (env : Env) (readings : List JVal)
    (h : runCheck env = writeWaybar (some readings)) :
    published (main.check env) = [Spec.Render (some readings.length)] := by
  rw [main_check_of_write env (some readings) h, published_writeWaybar]
  rfl

theorem Render_count_class (n : Nat) :
    ((Spec.Render (some n)).Class = "empty" ↔ n = 0) ∧
    (n ≠ 0 → (Spec.Render (some n)).Class = "unread" ∧
      (Spec.Render (some n)).Text = sprintD n ∧ (Spec.Render (some n)).Alt = sprintD n) := by
  cases n with
  | zero => simp [Spec.Render]
  | succ k => simp [Spec.Render]

/-! ## C2: the `unreads` array -/

/-- C2. When the response body decodes to a JSON object whose `unreads`
member is an array of length n, whatever else the object holds, the `check`
run returns no error and publishes exactly one record; its class is "empty"
if and only if n = 0, and for n > 0 its class is "unread" and its alt is the
decimal of n. -/
theorem check_unreads_array (env : Env) (resp : Response) (data : List (String × JVal))
    (unreads : List JVal)
    (hresp : runCheck.resp env = .ok resp)
    (hne : resp.Body.length ≠ 0)
    (hjson : env.jsonUnmarshal resp.Body = .ok (.object data))
    (hun : data.lookup "unreads" = some (.array unreads)) :
    (runCheck env).1 = none ∧
    ∃ out : WaybarOutput, published (main.check env) = [out] ∧
      (out.Class = "empty" ↔ unreads.length = 0) ∧
      (unreads.length ≠ 0 → out.Class = "unread" ∧ out.Alt = sprintD unreads.length) := by
  have h : runCheck env = writeWaybar (some unreads) := by
    rw [runCheck_of_resp env resp hresp, dispatch_unreads env resp data unreads hne hjson hun]
  refine ⟨by rw [h]; rfl, Spec.Render (some unreads.length),
    published_check_of_write env unreads h, (Render_count_class _).1, ?_⟩
  intro hn
  exact ⟨((Render_count_class _).2 hn).1, ((Render_count_class _).2 hn).2.2⟩

/-- C2 at the body `unreadsBody`: the `unreads` array decides, the record
published is the `unread` record "2". -/
theorem check_unreads_array_witness :
    published (main.check unreadsEnv) =
      [{ Text := "2", Alt := "2", Tooltip := "2 Unread Notifications", Class := "unread" }] ∧
    ((runCheck unreadsEnv).1 = none ∧
     ∃ out : WaybarOutput,
      published (main.check unreadsEnv) = [out] ∧
      (out.Class = "empty" ↔ [JVal.object [], JVal.object []].length = 0) ∧
      ([JVal.object [], JVal.object []].length ≠ 0 →
        out.Class = "unread" ∧ out.Alt = sprintD [JVal.object [], JVal.object []].length)) :=
  ⟨by decide,
   check_unreads_array unreadsEnv { Status := "200 OK", Body := unreadsBody }
     [("error", .string "x"), ("readings", .array [.object []]),
      ("unreads", .array [.object [], .object []])]
     [.object [], .object []] rfl (by decide) rfl rfl⟩

/-! ## C3: one record per run -/

/-- From the `runCheck` call on, the `check` arm publishes exactly one
record: the error record when `runCheck` returns an error (having written
nothing itself), else the count record `runCheck` wrote. -/
theorem main_check_publishes_one (env : Env) :
    (published (main.check env)).length = 1 ∧
    (∀ err : String, (runCheck env).1 = some err →
      published (runCheck env).2 = [] ∧
      published (main.check env) =
        [{ Text := "err", Alt := "error", Tooltip := "Check Failed", Class := "error" }]) ∧
    ((runCheck env).1 = none →
      main.check env = (runCheck env).2 ∧
      ∃ n : Nat, published (main.check env) = [Spec.Render (some n)]) := by
  rcases runCheck_cases env with ⟨e, he⟩ | ⟨readings, hw⟩
  · refine ⟨by rw [published_check_of_error env e he]; rfl, ?_, ?_⟩
    · intro err _
      exact ⟨by rw [he]; rfl, published_check_of_error env e he⟩
    · intro hnone
      rw [he] at hnone
      cases hnone
  · refine ⟨by rw [published_check_of_write env readings hw]; rfl, ?_, ?_⟩
    · intro err herr
      rw [hw] at herr
      cases herr
    · intro _
      refine ⟨?_, readings.length, published_check_of_write env readings hw⟩
      rw [main_check_of_write env (some readings) hw, hw]

theorem checkCmd.Parse_output (arguments : List String) :
    published (checkCmd.Parse arguments).1 = [] ∧
    ((checkCmd.Parse arguments).2 = none → (checkCmd.Parse arguments).1 = []) := by
  cases arguments with
  | nil => exact ⟨rfl, fun _ => rfl⟩
  | cons s rest =>
    simp only [checkCmd.Parse]
    split_ifs <;> simp [published]

theorem checkCmd.Parse_chars (cs : List Char) (rest : List String) :
    (checkCmd.Parse (String.mk cs :: rest)).2 = none ↔
      cs.length < 2 ∨ cs.head? ≠ some '-' ∨ cs = ['-', '-'] := by
  match cs with
  | [] => simp [checkCmd.Parse]
  | [c] => simp [checkCmd.Parse]
  | c :: d :: tl =>
    by_cases hc : c = '-'
    · subst hc
      by_cases hd : d = '-'
      · subst hd
        cases tl with
        | nil => simp [checkCmd.Parse]
        | cons e tl =>
          simp only [checkCmd.Parse]
          split_ifs <;> simp_all
      · simp only [checkCmd.Parse]
        split_ifs <;> simp_all
    · simp [checkCmd.Parse, hc]

theorem checkCmd.Parse_returns_iff (arguments : List String) :
    (checkCmd.Parse arguments).2 = none ↔
      ∀ (s : String) (rest : List String), arguments = s :: rest →
        s.data.length < 2 ∨ s.data.head? ≠ some '-' ∨ s = "--" := by
  cases arguments with
  | nil => simp [checkCmd.Parse]
  | cons s rest =>
    obtain ⟨cs⟩ := s
    rw [checkCmd.Parse_chars]
    have hs : (String.mk cs = "--") ↔ cs = ['-', '-'] := by
      constructor
      · intro h
        exact congrArg String.data h
      · intro h
        rw [h]
    constructor
    · intro h s rest2 heq
      cases heq
      rw [hs]
      exact h
    · intro h
      have h2 := h (String.mk cs) rest rfl
      rw [hs] at h2
      exact h2

/-- C3, as the code has it. `checkCmd.Parse` returns exactly when there is no
argument after `check` or the first one is not a flag (it is shorter than two
characters, or does not start with `-`, or is `--`). Every such invocation
publishes exactly one record, whatever the host and the libraries return at
any stage: when `runCheck` returns an error it has written nothing itself and
the one record is the error record; when it returns no error the one record is
the count record that `runCheck` wrote, and the arm adds no effect of its own.
An invocation whose first argument is a flag ends in `checkCmd.Parse` with the
exit status of the flag package and publishes no record. -/
theorem check_publishes_one_when_flags_parse (env : Env) (arguments : List String) :
    ((checkCmd.Parse arguments).2 = none ↔
      ∀ (s : String) (rest : List String), arguments = s :: rest →
        s.data.length < 2 ∨ s.data.head? ≠ some '-' ∨ s = "--") ∧
    ((checkCmd.Parse arguments).2 = none →
      main.caseCheck env arguments = (main.check env, 0) ∧
      (published (main.caseCheck env arguments).1).length = 1 ∧
      (∀ err : String, (runCheck env).1 = some err →
        published (runCheck env).2 = [] ∧
        published (main.caseCheck env arguments).1 =
          [{ Text := "err", Alt := "error", Tooltip := "Check Failed", Class := "error" }]) ∧
      ((runCheck env).1 = none →
        (main.caseCheck env arguments).1 = (runCheck env).2 ∧
        ∃ n : Nat, published (main.caseCheck env arguments).1 = [Spec.Render (some n)])) ∧
    (∀ status : Nat, (checkCmd.Parse arguments).2 = some status →
      (main.caseCheck env arguments).2 = status ∧
      published (main.caseCheck env arguments).1 = []) := by
  refine ⟨checkCmd.Parse_returns_iff arguments, ?_, ?_⟩
  · intro hnone
    have hP : checkCmd.Parse arguments = ([], none) :=
      Prod.ext ((checkCmd.Parse_output arguments).2 hnone) hnone
    have hmain : main.caseCheck env arguments = (main.check env, 0) := by
      simp only [main.caseCheck, hP, List.nil_append]
    rw [hmain]
    exact ⟨rfl, main_check_publishes_one env⟩
  · intro status hsome
    have hpub := (checkCmd.Parse_output arguments).1
    cases hP : checkCmd.Parse arguments with
    | mk output ended =>
      rw [hP] at hsome hpub
      simp only at hsome hpub
      subst hsome
      constructor
      · simp only [main.caseCheck, hP]
      · simp only [main.caseCheck, hP]
        exact hpub

/-- C3 for `check` without arguments, on a host without config file (the
first stage fails) and on a host serving a three-element array (every stage
succeeds): one record each. -/
theorem check_publishes_one_when_flags_parse_witness :
    published (main.caseCheck noConfigEnv []).1 =
      [{ Text := "err", Alt := "error", Tooltip := "Check Failed", Class := "error" }] ∧
    (published (main.caseCheck arrayEnv []).1).length = 1 ∧
    (main.caseCheck arrayEnv []).1 = (runCheck arrayEnv).2 :=
  ⟨((((check_publishes_one_when_flags_parse noConfigEnv []).2.1 rfl).2.2.1)
      "config error: no such file or directory" rfl).2,
   ((check_publishes_one_when_flags_parse arrayEnv []).2.1 rfl).2.1,
   ((((check_publishes_one_when_flags_parse arrayEnv []).2.1 rfl).2.2.2) rfl).1⟩

/-- C3 as claimed fails: on a host where every stage would succeed, the
invocations `check -bogus` and `check -h` end in `checkCmd.Parse` (exit status
2 and 0) and publish no record. -/
theorem check_with_flag_publishes_nothing :
    main.caseCheck arrayEnv ["-bogus"] =
      ([Effect.stderr "flag provided but not defined: -bogus\n",
        Effect.stderr "Usage of check:\n"], 2) ∧
    published (main.caseCheck arrayEnv ["-bogus"]).1 = [] ∧
    main.caseCheck arrayEnv ["-h"] = ([Effect.stderr "Usage of check:\n"], 0) ∧
    published (main.caseCheck arrayEnv ["-h"]).1 = [] ∧
    published (main.caseCheck arrayEnv []).1 =
      [{ Text := "3", Alt := "3", Tooltip := "3 Unread Notifications", Class := "unread" }] := by
  refine ⟨by decide, by decide, by decide, by decide, by decide⟩

/-! ## C6: bodies that are no JSON, and roots that are neither object nor array -/

/-- C6, as the code has it. For a non-empty body: when `json.Unmarshal` fails,
`runCheck` fails with "API response was not JSON (Status: <status>)", which
includes the HTTP status of the response; when the decoded root is neither an
object nor an array, `runCheck` fails with the fixed message
"unknown JSON structure". In both cases the one record published is the error
record. -/
theorem runCheck_not_json_or_other_root (env : Env) (resp : Response)
    (hresp : runCheck.resp env = .ok resp)
    (hne : resp.Body.length ≠ 0) :
    (∀ e : String, env.jsonUnmarshal resp.Body = .error e →
      runCheck env =
        (some ("API response was not JSON (Status: " ++ resp.Status ++ ")"), []) ∧
      (∃ a b : List Char,
        ("API response was not JSON (Status: " ++ resp.Status ++ ")").data =
          a ++ resp.Status.data ++ b) ∧
      published (main.check env) =
        [{ Text := "err", Alt := "error", Tooltip := "Check Failed", Class := "error" }]) ∧
    (∀ v : JVal, env.jsonUnmarshal resp.Body = .ok v →
      (∀ m, v ≠ .object m) → (∀ xs, v ≠ .array xs) →
      runCheck env = (some "unknown JSON structure", []) ∧
      published (main.check env) =
        [{ Text := "err", Alt := "error", Tooltip := "Check Failed", Class := "error" }]) := by
  constructor
  · intro e he
    have h : runCheck env =
        (some ("API response was not JSON (Status: " ++ resp.Status ++ ")"), []) := by
      rw [runCheck_of_resp env resp hresp, dispatch_not_json env resp e hne he]
    refine ⟨h, ⟨"API response was not JSON (Status: ".data, ")".data, ?_⟩,
      published_check_of_error env _ h⟩
    simp [String.data_append]
  · intro v hv hobj harr
    have h : runCheck env = (some "unknown JSON structure", []) := by
      rw [runCheck_of_resp env resp hresp, dispatch_other env resp v hne hv hobj harr]
    exact ⟨h, published_check_of_error env _ h⟩

/-- C6 at the body "not json" served with status "502 Bad Gateway". -/
theorem runCheck_not_json_or_other_root_witness :
    runCheck notJsonEnv =
      (some "API response was not JSON (Status: 502 Bad Gateway)", []) ∧
    published (main.check notJsonEnv) =
      [{ Text := "err", Alt := "error", Tooltip := "Check Failed", Class := "error" }] :=
  ⟨((runCheck_not_json_or_other_root notJsonEnv
      { Status := "502 Bad Gateway", Body := "not json" } rfl (by decide)).1
      "invalid character in literal null" rfl).1,
   ((runCheck_not_json_or_other_root notJsonEnv
      { Status := "502 Bad Gateway", Body := "not json" } rfl (by decide)).1
      "invalid character in literal null" rfl).2.2⟩

/-- C6 as claimed fails: for the body `5` served with status "200 OK" the
error of `runCheck` is "unknown JSON structure", which contains neither the
status "200 OK" nor its code "200". -/
theorem runCheck_number_root_no_status :
    runCheck.resp numberEnv = .ok { Status := "200 OK", Body := "5" } ∧
    numberEnv.jsonUnmarshal "5" = .ok (.number "5") ∧
    runCheck numberEnv = (some "unknown JSON structure", []) ∧
    Contains "unknown JSON structure" "200 OK" = false ∧
    Contains "unknown JSON structure" "200" = false := by
  refine ⟨rfl, rfl, rfl, by decide, by decide⟩

/-! ## C7: the `readings` fallback -/

/-- C7. When the response body decodes to a JSON object with no `unreads` key
whose `readings` member is an array of length n, whatever else the object
holds, the `check` run returns no error and publishes exactly one record: its
alt is the decimal of n, its class is "unread" when n > 0 and "empty" when
n = 0. -/
theorem check_readings_array (env : Env) (resp : Response) (data : List (String × JVal))
    (readings : List JVal)
    (hresp : runCheck.resp env = .ok resp)
    (hne : resp.Body.length ≠ 0)
    (hjson : env.jsonUnmarshal resp.Body = .ok (.object data))
    (hun : data.lookup "unreads" = none)
    (hre : data.lookup "readings" = some (.array readings)) :
    (runCheck env).1 = none ∧
    ∃ out : WaybarOutput, published (main.check env) = [out] ∧
      out.Alt = sprintD readings.length ∧
      (0 < readings.length → out.Class = "unread") ∧
      (readings.length = 0 → out.Class = "empty") := by
  have h : runCheck env = writeWaybar (some readings) := by
    rw [runCheck_of_resp env resp hresp]
    exact dispatch_readings env resp data readings hne hjson (by simp [hun]) hre
  refine ⟨by rw [h]; rfl, Spec.Render (some readings.length),
    published_check_of_write env readings h, ?_, ?_, ?_⟩
  · cases hlen : readings.length with
    | zero => rfl
    | succ k => rfl
  · intro hpos
    exact ((Render_count_class _).2 (Nat.pos_iff_ne_zero.mp hpos)).1
  · intro hzero
    exact (Render_count_class _).1.mpr hzero

/-- C7 at the body `{"readings":[{}]}`: the record published is the `unread`
record "1". -/
theorem check_readings_array_witness :
    published (main.check readingsEnv) =
      [{ Text := "1", Alt := "1", Tooltip := "1 Unread Notifications", Class := "unread" }] ∧
    ((runCheck readingsEnv).1 = none ∧
     ∃ out : WaybarOutput, published (main.check readingsEnv) = [out] ∧
      out.Alt = sprintD [JVal.object []].length ∧
      (0 < [JVal.object []].length → out.Class = "unread") ∧
      ([JVal.object []].length = 0 → out.Class = "empty")) :=
  ⟨by decide,
   check_readings_array readingsEnv
     { Status := "200 OK", Body := "\x7b\"readings\":[\x7b\x7d]\x7d" }
     [("readings", .array [.object []])] [.object []] rfl (by decide) rfl rfl rfl⟩

/-! ## C8: objects without a count -/

/-- C8. When the response body decodes to a JSON object that has neither an
`unreads` array nor a `readings` array, `runCheck` fails without writing a
record: with an `error` member the error is "API Error: " followed by that
member's value, otherwise it is the message that no `unreads` property was
found. In both cases the one record published is the error record. -/
theorem check_object_without_count (env : Env) (resp : Response)
    (data : List (String × JVal))
    (hresp : runCheck.resp env = .ok resp)
    (hne : resp.Body.length ≠ 0)
    (hjson : env.jsonUnmarshal resp.Body = .ok (.object data))
    (hun : ∀ xs, data.lookup "unreads" ≠ some (.array xs))
    (hre : ∀ xs, data.lookup "readings" ≠ some (.array xs)) :
    (∀ errVal : JVal, data.lookup "error" = some errVal →
      runCheck env = (some ("API Error: " ++ env.sprintV errVal), [])) ∧
    (data.lookup "error" = none →
      runCheck env =
        (some ("JSON object returned, but no 'unreads' property found: " ++
          env.sprintV (.object data)), [])) ∧
    (∃ err : String, runCheck env = (some err, [])) ∧
    published (main.check env) =
      [{ Text := "err", Alt := "error", Tooltip := "Check Failed", Class := "error" }] := by
  have h := dispatch_no_array env resp data hne hjson hun hre
  rw [← runCheck_of_resp env resp hresp] at h
  cases hErr : data.lookup "error" with
  | none =>
    rw [hErr] at h
    exact ⟨fun _ hv => (by cases hv), fun _ => h, ⟨_, h⟩, published_check_of_error env _ h⟩
  | some v =>
    rw [hErr] at h
    refine ⟨fun errVal hv => ?_, fun hn => (by cases hn), ⟨_, h⟩,
      published_check_of_error env _ h⟩
    cases hv
    exact h

/-- C8 at the body `{}`: the error is the missing-property message and the
record published is the error record. -/
theorem check_object_without_count_witness :
    runCheck emptyObjectEnv =
      (some "JSON object returned, but no 'unreads' property found: map[]", []) ∧
    published (main.check emptyObjectEnv) =
      [{ Text := "err", Alt := "error", Tooltip := "Check Failed", Class := "error" }] :=
  ⟨(check_object_without_count emptyObjectEnv { Status := "200 OK", Body := "\x7b\x7d" } []
      rfl (by decide) rfl (by simp) (by simp)).2.1 rfl,
   (check_object_without_count emptyObjectEnv { Status := "200 OK", Body := "\x7b\x7d" } []
      rfl (by decide) rfl (by simp) (by simp)).2.2.2⟩

/-! ## C9: the empty body -/

/-- C9. An empty response body is no error: whatever `json.Unmarshal` would
return and whatever the HTTP status, the dispatch writes the count-0 record
and returns no error, and the `check` run publishes that one record. -/
theorem check_empty_body (env : Env) (resp : Response)
    (hresp : runCheck.resp env = .ok resp)
    (hempty : resp.Body = "") :
    (∀ (other : Env) (status : String),
      runCheck.dispatch other { Status := status, Body := "" } =
        (none,
          [Effect.writeFile OutputFile
            { Text := "", Alt := "0", Tooltip := "0 Unread Notifications", Class := "empty" } 0o644,
           Effect.run "pkill" ["-RTMIN+8", "waybar"]])) ∧
    (runCheck env).1 = none ∧
    main.check env =
      [Effect.writeFile OutputFile
        { Text := "", Alt := "0", Tooltip := "0 Unread Notifications", Class := "empty" } 0o644,
       Effect.run "pkill" ["-RTMIN+8", "waybar"]] ∧
    published (main.check env) =
      [{ Text := "", Alt := "0", Tooltip := "0 Unread Notifications", Class := "empty" }] := by
  have h : runCheck env = writeWaybar (some []) := by
    rw [runCheck_of_resp env resp hresp]
    exact dispatch_empty env resp (by rw [hempty]; rfl)
  refine ⟨fun other status => ?_, by rw [h]; rfl, ?_, ?_⟩
  · rw [dispatch_empty other { Status := status, Body := "" } rfl]
    rfl
  · rw [main_check_of_write env (some []) h]
    rfl
  · rw [published_check_of_write env [] h]
    rfl

/-- C9 on a host answering "500 Internal Server Error" with an empty body,
where `json.Unmarshal` would fail: the `empty` record is published. -/
theorem check_empty_body_witness :
    (runCheck emptyBodyEnv).1 = none ∧
    published (main.check emptyBodyEnv) =
      [{ Text := "", Alt := "0", Tooltip := "0 Unread Notifications", Class := "empty" }] :=
  ⟨(check_empty_body emptyBodyEnv
      { Status := "500 Internal Server Error", Body := "" } rfl rfl).2.1,
   (check_empty_body emptyBodyEnv
      { Status := "500 Internal Server Error", Body := "" } rfl rfl).2.2.2⟩

/-! ## C10: a bare array at the root -/

/-- C10. When the response body decodes to a bare array of length n,
`runCheck` returns no error and the `check` run publishes exactly one record,
the count-n record: class "empty" when n = 0, otherwise class "unread" with
text and alt the decimal of n. -/
theorem check_root_array (env : Env) (resp : Response) (data : List JVal)
    (hresp : runCheck.resp env = .ok resp)
    (hne : resp.Body.length ≠ 0)
    (hjson : env.jsonUnmarshal resp.Body = .ok (.array data)) :
    (runCheck env).1 = none ∧
    published (main.check env) = [Spec.Render (some data.length)] ∧
    (data.length = 0 → (Spec.Render (some data.length)).Class = "empty") ∧
    (data.length ≠ 0 →
      (Spec.Render (some data.length)).Class = "unread" ∧
      (Spec.Render (some data.length)).Text = sprintD data.length ∧
      (Spec.Render (some data.length)).Alt = sprintD data.length) := by
  have h : runCheck env = writeWaybar (some data) := by
    rw [runCheck_of_resp env resp hresp, dispatch_array env resp data hne hjson]
  exact ⟨by rw [h]; rfl, published_check_of_write env data h,
    (Render_count_class _).1.mpr, (Render_count_class _).2⟩

/-- C10 at the body `[{},{},{}]`: the record published is the `unread`
record "3". -/
theorem check_root_array_witness :
    (runCheck arrayEnv).1 = none ∧
    published (main.check arrayEnv) =
      [{ Text := "3", Alt := "3", Tooltip := "3 Unread Notifications", Class := "unread" }] :=
  ⟨(check_root_array arrayEnv
      { Status := "200 OK", Body := "[\x7b\x7d,\x7b\x7d,\x7b\x7d]" }
      [.object [], .object [], .object []] rfl (by decide) rfl).1,
   (check_root_array arrayEnv
      { Status := "200 OK", Body := "[\x7b\x7d,\x7b\x7d,\x7b\x7d]" }
      [.object [], .object [], .object []] rfl (by decide) rfl).2.1⟩

end WaybarBasecamp
